import Mathlib

/-!
Verification of the extraction-orchestration layer of the Smart Property
Agent (src/streamlit_app.py).  The Python code is shallowly embedded:
Python values that flow through the response-handling code are modelled by
the inductive type `PyVal`, dictionary/subscript/iteration primitives by
small `Except`-valued functions mirroring Python semantics (KeyError,
TypeError, AttributeError), and the two public operations
`find_properties` and `get_location_trends` are translated line by line
from `PropertyFindingAgent`.  The external `firecrawl.extract` call is a
parameter (an oracle from requests to responses); `str(max_price)` is
modelled by passing the rendered decimal string, and the `repr` of
containers inside f-strings is abstracted (no claim touches it).
-/

/-- Python runtime values relevant to the response-handling code. -/
inductive PyVal where
  | vNone : PyVal
  | vBool : Bool → PyVal
  | vInt : Int → PyVal
  | vStr : String → PyVal
  | vList : List PyVal → PyVal
  | vDict : List (String × PyVal) → PyVal

/-- Python exceptions that the embedded primitives can raise. -/
inductive PyErr where
  | keyError : String → PyErr
  | typeError : PyErr
  | attributeError : PyErr
deriving DecidableEq

/-- Python truthiness (`bool(x)`): None, False, 0, "", [], and an empty dict are falsy. -/
def truthy : PyVal → Bool
  | PyVal.vNone => false
  | PyVal.vBool b => b
  | PyVal.vInt n => n != 0
  | PyVal.vStr s => !s.isEmpty
  | PyVal.vList xs => !xs.isEmpty
  | PyVal.vDict kvs => !kvs.isEmpty

/-- First-match association-list lookup, the model of Python dict key lookup. -/
def dictLookup (kvs : List (String × PyVal)) (k : String) : Option PyVal :=
  match kvs with
  | [] => none
  | kv :: rest => if kv.1 == k then some kv.2 else dictLookup rest k

/-- Python `v.get(k, default)`: total on dicts, AttributeError on anything else. -/
def pyGet (v : PyVal) (k : String) (default : PyVal) : Except PyErr PyVal :=
  match v with
  | PyVal.vDict kvs => Except.ok ((dictLookup kvs k).getD default)
  | _ => Except.error PyErr.attributeError

/-- Executable substring test used to model `needle in haystack` on strings. -/
def strContainsB (hay needle : String) : Bool :=
  if needle.isEmpty then true else (hay.splitOn needle).length != 1

/-- Python `needle in v` for a string needle: key membership on dicts,
element equality on lists, substring on strings, TypeError otherwise. -/
def pyContains (v : PyVal) (needle : String) : Except PyErr Bool :=
  match v with
  | PyVal.vDict kvs => Except.ok (dictLookup kvs needle).isSome
  | PyVal.vList xs =>
      Except.ok (xs.any (fun x =>
        match x with
        | PyVal.vStr t => t == needle
        | _ => false))
  | PyVal.vStr s => Except.ok (strContainsB s needle)
  | _ => Except.error PyErr.typeError

/-- Python `v[k]` for a string key: dict lookup raising KeyError when the
key is absent, TypeError on non-dicts. -/
def pySub (v : PyVal) (k : String) : Except PyErr PyVal :=
  match v with
  | PyVal.vDict kvs =>
      match dictLookup kvs k with
      | some x => Except.ok x
      | none => Except.error (PyErr.keyError k)
  | _ => Except.error PyErr.typeError

/-- Python iteration `for x in v`: lists yield elements, dicts yield keys,
strings yield one-character strings, TypeError otherwise. -/
def pyIter : PyVal → Except PyErr (List PyVal)
  | PyVal.vList xs => Except.ok xs
  | PyVal.vDict kvs => Except.ok (kvs.map (fun kv => PyVal.vStr kv.1))
  | PyVal.vStr s => Except.ok (s.data.map (fun c => PyVal.vStr c.toString))
  | _ => Except.error PyErr.typeError

/-- Python `str(v)` as used by f-string interpolation.  Exact for the value
shapes the claims exercise (strings, booleans, integers, None); the repr of
containers is abstracted to a constant placeholder. -/
def pyStr : PyVal → String
  | PyVal.vStr s => s
  | PyVal.vBool true => "True"
  | PyVal.vBool false => "False"
  | PyVal.vInt n => toString n
  | PyVal.vNone => "None"
  | PyVal.vList _ => "<list>"
  | PyVal.vDict _ => "<dict>"

/-- Generic success test for embedded Python computations. -/
def exceptOk {α : Type} : Except PyErr α → Bool
  | Except.ok _ => true
  | Except.error _ => false

/-- Target schema sent with an extraction request (the JSON-schema
rendering of the pydantic models is abstracted to an identifier). -/
inductive SchemaId where
  | propertiesResponse : SchemaId
  | locationsResponse : SchemaId
deriving DecidableEq

/-- An extraction request as assembled by the agent: URL patterns, the
natural-language instruction, and the target schema. -/
structure ExtractionRequest where
  urls : List String
  prompt : String
  schema : SchemaId

/-- The `formatted_location = city.lower()` step of `find_properties`. -/
def formattedLocation (city : String) : String :=
  city.toLower

/-- The three URL patterns of `find_properties`, as functions of the
already-lowercased location token (lines 77 to 81 of the source). -/
def urlsFor (loc : String) : List String :=
  ["https://www.squareyards.com/sale/property-for-sale-in-" ++ loc ++ "/*",
   "https://www.99acres.com/property-in-" ++ loc ++ "-ffid/*",
   "https://housing.com/in/buy/" ++ loc ++ "/" ++ loc]

/-- The extraction instruction f-string of `find_properties` (lines 86 to
90), whitespace included; `max_price` is the rendered decimal string. -/
def promptFor (city max_price property_category property_type : String) : String :=
  "\n                Extract property listings for " ++ city ++
  " where property type is " ++ property_type ++ " and category is " ++
  property_category ++ ".\n                Only include properties under " ++
  max_price ++ " Crores.\n                Each property must include name, address, price, description, and type.\n                "

/-- The request-building prefix of `find_properties` (lines 76 to 92). -/
def buildRequest (city max_price property_category property_type : String) : ExtractionRequest :=
  ⟨urlsFor (formattedLocation city),
   promptFor city max_price property_category property_type,
   SchemaId.propertiesResponse⟩

/-- Python `city.lower()` as a raising primitive: AttributeError on
non-strings. -/
def pyLower (v : PyVal) : Except PyErr PyVal :=
  match v with
  | PyVal.vStr s => Except.ok (PyVal.vStr s.toLower)
  | _ => Except.error PyErr.attributeError

/-- The request-building prefix with every embedded Python primitive routed
through the exception monad, to state that it cannot raise. -/
def buildRequestE (city : PyVal) (max_price property_category property_type : String) : Except PyErr ExtractionRequest :=
  match pyLower city with
  | Except.error e => Except.error e
  | Except.ok loc =>
      Except.ok ⟨urlsFor (pyStr loc),
                 promptFor (pyStr city) max_price property_category property_type,
                 SchemaId.propertiesResponse⟩

/-- The fixed sentinel returned when no property data could be extracted
(line 96 of the source). -/
def sentinelNoData : String :=
  "⚠️ No property data could be extracted. Try with a different city or parameters."

/-- The per-record f-string block of the formatting loop (lines 101 to
109), with the five interpolated field strings as arguments. -/
def blockText (bn loc pt pr ds : String) : String :=
  "\n### 🏠 " ++ bn ++
  "\n- 📍 **Location**: " ++ loc ++
  "\n- 🏷️ **Type**: " ++ pt ++
  "\n- 💰 **Price**: " ++ pr ++
  "\n- 📝 **Description**: " ++ ds ++
  "\n\n---\n"

/-- One iteration of the formatting loop: the five key accesses on a raw
record, in f-string evaluation order, then the rendered block. -/
def formatBlock (prop : PyVal) : Except PyErr String :=
  match pySub prop "Building_name" with
  | Except.error e => Except.error e
  | Except.ok bn =>
      match pySub prop "location_address" with
      | Except.error e => Except.error e
      | Except.ok loc =>
          match pySub prop "Property_type" with
          | Except.error e => Except.error e
          | Except.ok pt =>
              match pySub prop "Price" with
              | Except.error e => Except.error e
              | Except.ok pr =>
                  match pySub prop "Description" with
                  | Except.error e => Except.error e
                  | Except.ok ds =>
                      Except.ok (blockText (pyStr bn) (pyStr loc) (pyStr pt) (pyStr pr) (pyStr ds))

/-- The `formatted = ""` then `formatted += block` loop of lines 99 to 109. -/
def formatLoop (props : List PyVal) (acc : String) : Except PyErr String :=
  match props with
  | [] => Except.ok acc
  | p :: rest =>
      match formatBlock p with
      | Except.error e => Except.error e
      | Except.ok b => formatLoop rest (acc ++ b)

/-- The response-interpretation suffix of `find_properties` (lines 95 to
110): sentinel on a falsy response or a payload without "properties",
otherwise the formatting loop over the raw records. -/
def interpretResponse (response : PyVal) : Except PyErr String :=
  if truthy response = false then
    Except.ok sentinelNoData
  else
    match pyGet response "data" (PyVal.vDict []) with
    | Except.error e => Except.error e
    | Except.ok dataVal =>
        match pyContains dataVal "properties" with
        | Except.error e => Except.error e
        | Except.ok hasProps =>
            if hasProps = false then
              Except.ok sentinelNoData
            else
              match pySub response "data" with
              | Except.error e => Except.error e
              | Except.ok d =>
                  match pySub d "properties" with
                  | Except.error e => Except.error e
                  | Except.ok properties =>
                      match pyIter properties with
                      | Except.error e => Except.error e
                      | Except.ok props => formatLoop props ""

/-- PropertyFindingAgent.find_properties, with the external
`firecrawl.extract` call abstracted as an oracle from requests to
responses (its transport-level exceptions are outside this layer). -/
def find_properties (city max_price property_category property_type : String)
    (extract : ExtractionRequest → PyVal) : Except PyErr String :=
  interpretResponse (extract (buildRequest city max_price property_category property_type))

/-- PropertyFindingAgent.get_location_trends (lines 112 to 121): issues a
trends extraction request and returns a fixed placeholder, discarding the
response. -/
def get_location_trends (city : String) (extract : ExtractionRequest → PyVal) : String :=
  let _raw_response := extract
    ⟨["https://www.99acres.com/property-rates-and-price-trends-in-" ++ city.toLower ++ "-prffid/*"],
     "Extract price trends data for ALL major localities in the city.",
     SchemaId.locationsResponse⟩
  "Sample location trend analysis (mocked for now)."

/-- The exact keys the formatter reads from each raw record. -/
def recordKeys : List String :=
  ["Building_name", "location_address", "Property_type", "Price", "Description"]

/-- A raw record carries all five keys the formatter reads. -/
def hasAllFields (prop : PyVal) : Bool :=
  recordKeys.all (fun k => exceptOk (pySub prop k))

/-- The string a record field renders to inside the block (empty when the
access would fail; used only under `hasAllFields`). -/
def fieldStr (prop : PyVal) (k : String) : String :=
  match pySub prop k with
  | Except.ok v => pyStr v
  | Except.error _ => ""

/-- The block a well-formed record renders to. -/
def renderRecord (prop : PyVal) : String :=
  blockText (fieldStr prop "Building_name") (fieldStr prop "location_address")
    (fieldStr prop "Property_type") (fieldStr prop "Price") (fieldStr prop "Description")

/-- A string occurs as a contiguous substring. -/
def Substr (pat s : String) : Prop :=
  ∃ l r, s = l ++ pat ++ r

/-- A URL pattern is terminated by the provider wildcard, that is, its last
character is the asterisk. -/
def WildcardSuffix (s : String) : Prop :=
  s.data.getLast? = some '*'

instance wildcardSuffixDecidable (s : String) : Decidable (WildcardSuffix s) :=
  inferInstanceAs (Decidable (s.data.getLast? = some '*'))

/-- A provider record carrying every key the formatter reads, used as a
concrete input below. -/
def sampleRecord : PyVal :=
  PyVal.vDict [("Building_name", PyVal.vStr "Skyline Towers"),
               ("Property_type", PyVal.vStr "Flat"),
               ("location_address", PyVal.vStr "Bandra West"),
               ("Price", PyVal.vStr "2.1 Cr"),
               ("Description", PyVal.vStr "2BHK sea view")]

/-- A provider record lacking the "Price" key, used as a concrete input
below. -/
def badRecord : PyVal :=
  PyVal.vDict [("Building_name", PyVal.vStr "Skyline Towers"),
               ("Property_type", PyVal.vStr "Flat"),
               ("location_address", PyVal.vStr "Bandra West"),
               ("Description", PyVal.vStr "2BHK sea view")]

theorem substr_intro (pat l r s : String) (h : s = l ++ pat ++ r) : Substr pat s :=
  ⟨l, r, h⟩

theorem charToLowerIdem (c : Char) : Char.toLower (Char.toLower c) = Char.toLower c := by
  simp only [Char.toLower]
  by_cases h : Char.toNat c ≥ 65 ∧ Char.toNat c ≤ 90
  · rw [if_pos h]
    have hv : Nat.isValidChar (Char.toNat c + 32) := Or.inl (by omega)
    have ht : Char.toNat (Char.ofNat (Char.toNat c + 32)) = Char.toNat c + 32 := by
      rw [Char.ofNat, dif_pos hv]
      rfl
    rw [ht]
    rw [if_neg (by omega)]
  · rw [if_neg h, if_neg h]

theorem wildcardSuffix_of_data (s : String) (l : List Char) (h : s.data = l ++ ['*']) :
    WildcardSuffix s := by
  unfold WildcardSuffix
  rw [h]
  exact List.getLast?_concat _

theorem exceptOk_true {α : Type} (x : Except PyErr α) (h : exceptOk x = true) :
    ∃ v, x = Except.ok v := by
  cases x with
  | ok v => exact ⟨v, rfl⟩
  | error e => simp [exceptOk] at h

theorem exceptOk_false {α : Type} (x : Except PyErr α) (h : exceptOk x = false) :
    ∃ e, x = Except.error e := by
  cases x with
  | ok v => simp [exceptOk] at h
  | error e => exact ⟨e, rfl⟩

theorem formatBlock_isOk (p : PyVal) : exceptOk (formatBlock p) = hasAllFields p := by
  unfold formatBlock hasAllFields recordKeys
  cases h1 : pySub p "Building_name" <;>
    cases h2 : pySub p "location_address" <;>
    cases h3 : pySub p "Property_type" <;>
    cases h4 : pySub p "Price" <;>
    cases h5 : pySub p "Description" <;>
    simp [exceptOk, List.all, h1, h2, h3, h4, h5]

theorem formatBlock_eq_render (p : PyVal) (h : hasAllFields p = true) :
    formatBlock p = Except.ok (renderRecord p) := by
  unfold hasAllFields recordKeys at h
  simp [List.all] at h
  obtain ⟨h1, h2, h3, h4, h5⟩ := h
  obtain ⟨bn, e1⟩ := exceptOk_true _ h1
  obtain ⟨loc, e2⟩ := exceptOk_true _ h2
  obtain ⟨pt, e3⟩ := exceptOk_true _ h3
  obtain ⟨pr, e4⟩ := exceptOk_true _ h4
  obtain ⟨ds, e5⟩ := exceptOk_true _ h5
  simp [formatBlock, renderRecord, fieldStr, e1, e2, e3, e4, e5]

theorem formatLoop_all_ok (props : List PyVal) (hall : ∀ p ∈ props, hasAllFields p = true) :
    ∀ acc, formatLoop props acc = Except.ok (props.foldl (fun a p => a ++ renderRecord p) acc) := by
  induction props with
  | nil => intro acc; rfl
  | cons q rest ih =>
      intro acc
      have hq : hasAllFields q = true := hall q (List.mem_cons_self q rest)
      unfold formatLoop
      rw [formatBlock_eq_render q hq]
      exact ih (fun p hp => hall p (List.mem_cons_of_mem q hp)) (acc ++ renderRecord q)

theorem formatLoop_err (props : List PyVal) (hbad : ∃ p ∈ props, hasAllFields p = false) :
    ∀ acc, ∃ e, formatLoop props acc = Except.error e := by
  induction props with
  | nil =>
      obtain ⟨p, hp, _⟩ := hbad
      exact absurd hp (List.not_mem_nil p)
  | cons q rest ih =>
      intro acc
      cases hq : hasAllFields q with
      | false =>
          obtain ⟨e, he⟩ := exceptOk_false (formatBlock q) (by rw [formatBlock_isOk]; exact hq)
          exact ⟨e, by unfold formatLoop; rw [he]⟩
      | true =>
          obtain ⟨p, hp, hb⟩ := hbad
          have hpr : p ∈ rest := by
            rcases List.mem_cons.mp hp with rfl | hr
            · rw [hq] at hb; exact absurd hb (by simp)
            · exact hr
          obtain ⟨e, he⟩ := ih ⟨p, hpr, hb⟩ (acc ++ renderRecord q)
          exact ⟨e, by unfold formatLoop; rw [formatBlock_eq_render q hq]; exact he⟩

theorem join_eq_foldl (props : List PyVal) :
    String.join (props.map renderRecord) = props.foldl (fun a p => a ++ renderRecord p) "" := by
  rw [String.join, List.foldl_map]

theorem renderRecord_parts (p : PyVal) :
    (∃ rest, renderRecord p = "\n### 🏠 " ++ rest) ∧
    Substr (fieldStr p "Building_name") (renderRecord p) ∧
    Substr (fieldStr p "location_address") (renderRecord p) ∧
    Substr (fieldStr p "Property_type") (renderRecord p) ∧
    Substr (fieldStr p "Price") (renderRecord p) ∧
    Substr (fieldStr p "Description") (renderRecord p) := by
  refine ⟨⟨fieldStr p "Building_name" ++ "\n- 📍 **Location**: " ++ fieldStr p "location_address" ++
      "\n- 🏷️ **Type**: " ++ fieldStr p "Property_type" ++ "\n- 💰 **Price**: " ++
      fieldStr p "Price" ++ "\n- 📝 **Description**: " ++ fieldStr p "Description" ++ "\n\n---\n", ?_⟩,
    substr_intro _ "\n### 🏠 "
      ("\n- 📍 **Location**: " ++ fieldStr p "location_address" ++ "\n- 🏷️ **Type**: " ++
       fieldStr p "Property_type" ++ "\n- 💰 **Price**: " ++ fieldStr p "Price" ++
       "\n- 📝 **Description**: " ++ fieldStr p "Description" ++ "\n\n---\n") _ ?_,
    substr_intro _ ("\n### 🏠 " ++ fieldStr p "Building_name" ++ "\n- 📍 **Location**: ")
      ("\n- 🏷️ **Type**: " ++ fieldStr p "Property_type" ++ "\n- 💰 **Price**: " ++
       fieldStr p "Price" ++ "\n- 📝 **Description**: " ++ fieldStr p "Description" ++ "\n\n---\n") _ ?_,
    substr_intro _ ("\n### 🏠 " ++ fieldStr p "Building_name" ++ "\n- 📍 **Location**: " ++
       fieldStr p "location_address" ++ "\n- 🏷️ **Type**: ")
      ("\n- 💰 **Price**: " ++ fieldStr p "Price" ++ "\n- 📝 **Description**: " ++
       fieldStr p "Description" ++ "\n\n---\n") _ ?_,
    substr_intro _ ("\n### 🏠 " ++ fieldStr p "Building_name" ++ "\n- 📍 **Location**: " ++
       fieldStr p "location_address" ++ "\n- 🏷️ **Type**: " ++ fieldStr p "Property_type" ++
       "\n- 💰 **Price**: ")
      ("\n- 📝 **Description**: " ++ fieldStr p "Description" ++ "\n\n---\n") _ ?_,
    substr_intro _ ("\n### 🏠 " ++ fieldStr p "Building_name" ++ "\n- 📍 **Location**: " ++
       fieldStr p "location_address" ++ "\n- 🏷️ **Type**: " ++ fieldStr p "Property_type" ++
       "\n- 💰 **Price**: " ++ fieldStr p "Price" ++ "\n- 📝 **Description**: ")
      "\n\n---\n" _ ?_⟩ <;>
  · apply String.ext
    simp [renderRecord, blockText]

theorem interpret_wf (kvs dkvs : List (String × PyVal)) (props : List PyVal)
    (hd : dictLookup kvs "data" = some (PyVal.vDict dkvs))
    (hp : dictLookup dkvs "properties" = some (PyVal.vList props)) :
    interpretResponse (PyVal.vDict kvs) = formatLoop props "" := by
  have hne : kvs ≠ [] := by
    intro hnil
    rw [hnil] at hd
    simp [dictLookup] at hd
  have ht : truthy (PyVal.vDict kvs) = true := by
    cases kvs with
    | nil => exact absurd rfl hne
    | cons a as => simp [truthy]
  unfold interpretResponse
  rw [if_neg (by rw [ht]; intro hcontra; exact Bool.noConfusion hcontra)]
  simp [pyGet, hd, pyContains, hp, pySub, pyIter]

/-- C1: for every extraction response that is falsy, or whose data mapping
lacks the top-level key "properties" (including a response with no "data"
key at all, where the code substitutes an empty dict), `find_properties`
returns exactly the fixed no-data sentinel string, regardless of the other
contents of the response, and does not raise. -/
theorem find_properties_no_data_sentinel (resp : PyVal) (city mp cat pt : String)
    (h : truthy resp = false ∨
         ∃ kvs, resp = PyVal.vDict kvs ∧
           (dictLookup kvs "data" = none ∨
            ∃ dkvs, dictLookup kvs "data" = some (PyVal.vDict dkvs) ∧
              dictLookup dkvs "properties" = none)) :
    find_properties city mp cat pt (fun _ => resp) = Except.ok sentinelNoData := by
  unfold find_properties interpretResponse
  rcases h with hf | ⟨kvs, rfl, hcase⟩
  · rw [if_pos hf]
  · by_cases ht : truthy (PyVal.vDict kvs) = false
    · rw [if_pos ht]
    · rw [if_neg ht]
      rcases hcase with hnone | ⟨dkvs, hsome, hnoprops⟩
      · simp [pyGet, hnone, pyContains, dictLookup]
      · simp [pyGet, hsome, pyContains, hnoprops]

theorem find_properties_no_data_sentinel_witness :
    find_properties "Mumbai" "2.5" "Residential" "Flat"
      (fun _ => PyVal.vDict [("success", PyVal.vBool true), ("data", PyVal.vDict [("status", PyVal.vStr "done")])]) =
      Except.ok sentinelNoData :=
  find_properties_no_data_sentinel _ "Mumbai" "2.5" "Residential" "Flat"
    (Or.inr ⟨_, rfl, Or.inr ⟨[("status", PyVal.vStr "done")], rfl, rfl⟩⟩)

/-- C2: for every response whose data maps "properties" to a list of
records each carrying all expected keys, `find_properties` returns exactly
the concatenation of one block per record, in input order (so exactly N
header-initiated blocks for N records, nothing dropped or re-sorted), each
block containing the building name, location address, property type,
price, and description of its record as substrings, and the result does
not depend on `max_price` (no local price filtering). -/
theorem find_properties_formats_all (city mp cat pt : String)
    (kvs dkvs : List (String × PyVal)) (props : List PyVal)
    (hd : dictLookup kvs "data" = some (PyVal.vDict dkvs))
    (hp : dictLookup dkvs "properties" = some (PyVal.vList props))
    (hall : ∀ p ∈ props, hasAllFields p = true) :
    find_properties city mp cat pt (fun _ => PyVal.vDict kvs) =
      Except.ok (String.join (props.map renderRecord)) ∧
    (props.map renderRecord).length = props.length ∧
    (∀ p ∈ props,
      (∃ rest, renderRecord p = "\n### 🏠 " ++ rest) ∧
      Substr (fieldStr p "Building_name") (renderRecord p) ∧
      Substr (fieldStr p "location_address") (renderRecord p) ∧
      Substr (fieldStr p "Property_type") (renderRecord p) ∧
      Substr (fieldStr p "Price") (renderRecord p) ∧
      Substr (fieldStr p "Description") (renderRecord p)) ∧
    (∀ mp2 : String,
      find_properties city mp2 cat pt (fun _ => PyVal.vDict kvs) =
        find_properties city mp cat pt (fun _ => PyVal.vDict kvs)) := by
  have hmain : ∀ mps : String,
      find_properties city mps cat pt (fun _ => PyVal.vDict kvs) =
        Except.ok (String.join (props.map renderRecord)) := by
    intro mps
    unfold find_properties
    rw [interpret_wf kvs dkvs props hd hp, formatLoop_all_ok props hall "", join_eq_foldl]
  exact ⟨hmain mp, by simp, fun p _ => renderRecord_parts p,
    fun mp2 => (hmain mp2).trans (hmain mp).symm⟩

theorem find_properties_formats_all_witness :
    find_properties "Mumbai" "2.5" "Residential" "Flat"
      (fun _ => PyVal.vDict [("data", PyVal.vDict [("properties", PyVal.vList [sampleRecord])])]) =
      Except.ok (String.join ([sampleRecord].map renderRecord)) :=
  (find_properties_formats_all "Mumbai" "2.5" "Residential" "Flat"
    [("data", PyVal.vDict [("properties", PyVal.vList [sampleRecord])])]
    [("properties", PyVal.vList [sampleRecord])]
    [sampleRecord] rfl rfl (by decide)).1

/-- C3: for every city and every extraction oracle (the case where the
extract call itself returns), `get_location_trends` returns the fixed
placeholder string and never incorporates any content of the extraction
response into its return value (two oracles give identical results). -/
theorem get_location_trends_stub (city : String) (e1 e2 : ExtractionRequest → PyVal) :
    get_location_trends city e1 = "Sample location trend analysis (mocked for now)." ∧
    get_location_trends city e1 = get_location_trends city e2 :=
  ⟨rfl, rfl⟩

/-- C4: if the "properties" list contains a record that is a dict lacking
one of the exact keys the formatter reads, `find_properties` raises (the
embedded computation ends in an error, not in a string). -/
theorem find_properties_missing_key_raises (city mp cat pt : String)
    (kvs dkvs : List (String × PyVal)) (props : List PyVal)
    (hd : dictLookup kvs "data" = some (PyVal.vDict dkvs))
    (hp : dictLookup dkvs "properties" = some (PyVal.vList props))
    (hbad : ∃ p ∈ props, ∃ fields, p = PyVal.vDict fields ∧
      ∃ k ∈ recordKeys, dictLookup fields k = none) :
    ∃ e, find_properties city mp cat pt (fun _ => PyVal.vDict kvs) = Except.error e := by
  have hb : ∃ p ∈ props, hasAllFields p = false := by
    obtain ⟨p, hmem, fields, rfl, k, hk, hnone⟩ := hbad
    refine ⟨_, hmem, ?_⟩
    rw [hasAllFields]
    exact List.all_eq_false.mpr ⟨k, hk, by simp [pySub, hnone, exceptOk]⟩
  obtain ⟨e, he⟩ := formatLoop_err props hb ""
  exact ⟨e, by unfold find_properties; rw [interpret_wf kvs dkvs props hd hp]; exact he⟩

theorem find_properties_missing_key_raises_witness :
    ∃ e, find_properties "Mumbai" "2.5" "Residential" "Flat"
      (fun _ => PyVal.vDict [("data", PyVal.vDict [("properties", PyVal.vList [badRecord])])]) =
      Except.error e :=
  find_properties_missing_key_raises "Mumbai" "2.5" "Residential" "Flat"
    [("data", PyVal.vDict [("properties", PyVal.vList [badRecord])])]
    [("properties", PyVal.vList [badRecord])]
    [badRecord] rfl rfl
    ⟨badRecord, List.mem_cons_self _ _,
     [("Building_name", PyVal.vStr "Skyline Towers"),
      ("Property_type", PyVal.vStr "Flat"),
      ("location_address", PyVal.vStr "Bandra West"),
      ("Description", PyVal.vStr "2BHK sea view")], rfl, "Price", by decide, rfl⟩

/-- C5 counterexample: at the concrete input city "Mumbai" the third URL
built by `find_properties` is not terminated with a wildcard suffix, so
the claim that each of the three URL strings ends in the wildcard is
false. -/
theorem third_url_not_wildcard :
    decide (WildcardSuffix ((buildRequest "Mumbai" "2.5" "Residential" "Flat").urls.getD 2 "")) = false := by
  simp [buildRequest, urlsFor, formattedLocation, String.toLower, String.map_eq, WildcardSuffix]

/-- C5 amended: for every city input, `find_properties` constructs exactly
three URL patterns, each obtained by substituting the lowercased city
token into one of three fixed templates; the first two are terminated with
a wildcard suffix, while the third (housing.com) is not wildcard
terminated and instead ends with the lowercased city token. -/
theorem build_urls_shape (city mp cat pt : String) :
    (buildRequest city mp cat pt).urls =
      ["https://www.squareyards.com/sale/property-for-sale-in-" ++ formattedLocation city ++ "/*",
       "https://www.99acres.com/property-in-" ++ formattedLocation city ++ "-ffid/*",
       "https://housing.com/in/buy/" ++ formattedLocation city ++ "/" ++ formattedLocation city] ∧
    (buildRequest city mp cat pt).urls.length = 3 ∧
    WildcardSuffix ((buildRequest city mp cat pt).urls.getD 0 "") ∧
    WildcardSuffix ((buildRequest city mp cat pt).urls.getD 1 "") := by
  refine ⟨rfl, rfl, ?_, ?_⟩
  · apply wildcardSuffix_of_data _
      ("https://www.squareyards.com/sale/property-for-sale-in-".data ++ (formattedLocation city).data ++ ['/'])
    simp [buildRequest, urlsFor]
  · apply wildcardSuffix_of_data _
      ("https://www.99acres.com/property-in-".data ++ (formattedLocation city).data ++ ['-', 'f', 'f', 'i', 'd', '/'])
    simp [buildRequest, urlsFor]

/-- C6: URL generation is a deterministic pure function of the lowercased
city token: whenever two city inputs have equal lowercased forms, the two
invocations build identical lists of three URL strings. -/
theorem urls_deterministic (city1 city2 mp cat pt : String)
    (h : formattedLocation city1 = formattedLocation city2) :
    (buildRequest city1 mp cat pt).urls = (buildRequest city2 mp cat pt).urls := by
  simp [buildRequest, urlsFor, h]

theorem urls_deterministic_witness :
    (buildRequest "MUMBAI" "2.5" "Residential" "Flat").urls =
      (buildRequest "Mumbai" "2.5" "Residential" "Flat").urls :=
  urls_deterministic "MUMBAI" "Mumbai" "2.5" "Residential" "Flat"
    (by simp [formattedLocation, String.toLower, String.map_eq])

/-- C7: the extraction instruction string built by `find_properties`
contains the original city string (not the lowercased token), the property
type, the property category, and the rendered max price, each embedded
verbatim as a substring. -/
theorem prompt_embeds_verbatim (city mp cat pt : String) :
    Substr city (buildRequest city mp cat pt).prompt ∧
    Substr pt (buildRequest city mp cat pt).prompt ∧
    Substr cat (buildRequest city mp cat pt).prompt ∧
    Substr mp (buildRequest city mp cat pt).prompt := by
  refine ⟨substr_intro city "\n                Extract property listings for "
      (" where property type is " ++ pt ++ " and category is " ++ cat ++
       ".\n                Only include properties under " ++ mp ++
       " Crores.\n                Each property must include name, address, price, description, and type.\n                ") _ ?_,
    substr_intro pt ("\n                Extract property listings for " ++ city ++ " where property type is ")
      (" and category is " ++ cat ++ ".\n                Only include properties under " ++ mp ++
       " Crores.\n                Each property must include name, address, price, description, and type.\n                ") _ ?_,
    substr_intro cat ("\n                Extract property listings for " ++ city ++ " where property type is " ++ pt ++ " and category is ")
      (".\n                Only include properties under " ++ mp ++
       " Crores.\n                Each property must include name, address, price, description, and type.\n                ") _ ?_,
    substr_intro mp ("\n                Extract property listings for " ++ city ++ " where property type is " ++ pt ++ " and category is " ++ cat ++ ".\n                Only include properties under ")
      (" Crores.\n                Each property must include name, address, price, description, and type.\n                ") _ ?_⟩ <;>
  · apply String.ext
    simp [buildRequest, promptFor]

/-- C8: the request-building step is total: for every city string
(including the empty string) and every rendered max price (including
negative values), routing each embedded Python primitive through the
exception monad yields the unchecked pass-through request and never an
error. -/
theorem request_building_total (city mp cat pt : String) :
    buildRequestE (PyVal.vStr city) mp cat pt = Except.ok (buildRequest city mp cat pt) :=
  rfl

/-- C9: city-token derivation is idempotent: lowercasing the result of
lowercasing any string yields the same token as lowercasing it once. -/
theorem formattedLocation_idempotent (s : String) :
    formattedLocation (formattedLocation s) = formattedLocation s := by
  unfold formattedLocation
  rw [String.toLower, String.toLower, String.map_eq, String.map_eq]
  have hf : (Char.toLower ∘ Char.toLower) = Char.toLower := funext (fun c => charToLowerIdem c)
  show String.mk (List.map Char.toLower (List.map Char.toLower s.data)) = String.mk (List.map Char.toLower s.data)
  rw [List.map_map, hf]

/-- C10: when the data maps "properties" to an empty list,
`find_properties` returns the empty string (zero formatted blocks), which
is distinct from the no-data sentinel. -/
theorem empty_properties_empty_string (city mp cat pt : String)
    (kvs dkvs : List (String × PyVal))
    (hd : dictLookup kvs "data" = some (PyVal.vDict dkvs))
    (hp : dictLookup dkvs "properties" = some (PyVal.vList [])) :
    find_properties city mp cat pt (fun _ => PyVal.vDict kvs) = Except.ok "" ∧
    sentinelNoData ≠ "" := by
  constructor
  · unfold find_properties
    rw [interpret_wf kvs dkvs [] hd hp]
    rfl
  · decide

theorem empty_properties_empty_string_witness :
    find_properties "Mumbai" "2.5" "Residential" "Flat"
      (fun _ => PyVal.vDict [("data", PyVal.vDict [("properties", PyVal.vList [])])]) =
      Except.ok "" ∧ sentinelNoData ≠ "" :=
  empty_properties_empty_string "Mumbai" "2.5" "Residential" "Flat"
    [("data", PyVal.vDict [("properties", PyVal.vList [])])]
    [("properties", PyVal.vList [])] rfl rfl
